import Mathlib

/-!
# Funciones para sockets: a verification development

Shallow embedding of `codigos/funciones_sockets.h` (and of the two demo
programs that use it).  The C functions talk to the operating system, so the
embedding threads an explicit world (`Mundo`) through every function and asks
an arbitrary, deterministic operating system (`SO`) for the result of each
system call.  A function either returns to its caller (`Resultado.retorna`) or
ends the process through `exit` (`Resultado.termina`).

Conventions of the model:

* `int` values are `Int`.  The counts the operating system hands back
  (`ssize_t`) are taken to lie in the range of `int`, so the assignment to an
  `int` local is the identity.
* the heap is not modelled: `malloc` always succeeds and `freeaddrinfo` has no
  observable effect.
* `getaddrinfo` that reports success yields a non-empty chain (POSIX), so a
  `struct addrinfo *` that the code dereferences is a node, never `NULL`.
-/

namespace FuncionesSockets

/-- A byte of memory (`unsigned char`). -/
abbrev Byte := Fin 256

/-! ## Constants of the platform headers (Linux values) -/

/-- The constant `AF_INET` of `<sys/socket.h>`. -/
def AF_INET : Int := 2
/-- The constant `AF_INET6` of `<sys/socket.h>`. -/
def AF_INET6 : Int := 10
/-- The constant `AI_PASSIVE` of `<netdb.h>`. -/
def AI_PASSIVE : Int := 1
/-- The constant `SOCK_STREAM` of `<sys/socket.h>`. -/
def SOCK_STREAM : Int := 1
/-- The constant `SOCK_DGRAM` of `<sys/socket.h>`. -/
def SOCK_DGRAM : Int := 2
/-- The constant `SOL_SOCKET` of `<sys/socket.h>`. -/
def SOL_SOCKET : Int := 1
/-- The constant `SO_REUSEADDR` of `<sys/socket.h>`. -/
def SO_REUSEADDR : Int := 2
/-- The constant `MSG_PEEK` of `<sys/socket.h>`. -/
def MSG_PEEK : Int := 2
/-- The constant `MSG_DONTWAIT` of `<sys/socket.h>`. -/
def MSG_DONTWAIT : Int := 64
/-- The constant `EXIT_FAILURE` of `<stdlib.h>`. -/
def EXIT_FAILURE : Int := 1
/-- The constant `INET6_ADDRSTRLEN` of `<netinet/in.h>`. -/
def INET6_ADDRSTRLEN : Nat := 46
/-- The value of `sizeof(struct sockaddr_storage)`. -/
def tam_sockaddr_storage : Int := 128
/-- The value of `sizeof(int)`. -/
def tam_int : Int := 4
/-- The value of `errno` for "no data pending" on a non-blocking socket. -/
def EAGAIN : Int := 11
/-- The value of `errno` for an invalid (for instance closed) descriptor. -/
def EBADF : Int := 9

/-- The value of `errno` for a connection reset by the peer. -/
def ECONNRESET : Int := 104

/-! ## Data model -/

/-- The `typedef enum {kIPV4, kIPV6} Familia_direcciones`. -/
inductive Familia_direcciones where
  | kIPV4
  | kIPV6
deriving DecidableEq, Repr

/-- A raw socket address (`struct sockaddr` and the structures cast to it):
the family tag and the bytes that follow it in memory, `sa_data[k]` being the
byte at offset `k + 2` of the structure. -/
structure sockaddr where
  sa_family : Int
  sa_data : List Byte
deriving DecidableEq, Repr

/-- A node of the chain `struct addrinfo`; `ai_next = none` is `NULL`. -/
inductive addrinfo where
  | mk (ai_flags ai_family ai_socktype ai_protocol ai_addrlen : Int)
      (ai_addr : Option sockaddr) (ai_canonname : Option String)
      (ai_next : Option addrinfo)
deriving Repr

namespace addrinfo

/-- Field `ai_flags`. -/
def ai_flags : addrinfo → Int
  | mk f _ _ _ _ _ _ _ => f
/-- Field `ai_family`. -/
def ai_family : addrinfo → Int
  | mk _ f _ _ _ _ _ _ => f
/-- Field `ai_socktype`. -/
def ai_socktype : addrinfo → Int
  | mk _ _ t _ _ _ _ _ => t
/-- Field `ai_protocol`. -/
def ai_protocol : addrinfo → Int
  | mk _ _ _ p _ _ _ _ => p
/-- Field `ai_addrlen`. -/
def ai_addrlen : addrinfo → Int
  | mk _ _ _ _ l _ _ _ => l
/-- Field `ai_addr`. -/
def ai_addr : addrinfo → Option sockaddr
  | mk _ _ _ _ _ a _ _ => a
/-- Field `ai_canonname`. -/
def ai_canonname : addrinfo → Option String
  | mk _ _ _ _ _ _ c _ => c
/-- Field `ai_next`. -/
def ai_next : addrinfo → Option addrinfo
  | mk _ _ _ _ _ _ _ n => n

end addrinfo

/-- A call into the operating system, with the arguments the code passes. -/
inductive Llamada where
  | getaddrinfo (ip_host : Option String) (puerto : String) (referencia : addrinfo)
  | socket (familia tipo protocolo : Int)
  | setsockopt (descriptor nivel opcion valor tam : Int)
  | bind (descriptor : Int) (direccion : Option sockaddr) (tam_dir : Int)
  | connect (descriptor : Int) (direccion : Option sockaddr) (tam_dir : Int)
  | listen (descriptor reserva : Int)
  | accept (descriptor tam_dir : Int)
  | send (descriptor : Int) (buffer : List Byte) (tam_buffer bandera : Int)
  | recv (descriptor : Int) (buffer : List Byte) (tam_buffer bandera : Int)
  | sendto (descriptor : Int) (buffer : List Byte) (tam_buffer bandera : Int)
      (direccion : Option sockaddr) (tam_dir : Int)
  | recvfrom (descriptor : Int) (buffer : List Byte) (tam_buffer bandera tam_dir : Int)
  | close (descriptor : Int)
deriving Repr

/-- What the operating system answers to one call: the value returned (for
the transfer calls the `ssize_t` count, which is at most the length asked for
and so fits the `int` it is assigned to), the value of `errno` afterwards, and
the contents of the output parameters (`direcciones` for `getaddrinfo`,
`datos` for the receive buffer, `origen` for the peer address of `accept` and
`recvfrom`). -/
structure Respuesta where
  valor : Int
  errno : Int
  direcciones : addrinfo
  datos : List Byte
  origen : sockaddr
deriving Repr

/-- One entry of the trace: a call and its answer. -/
structure Evento where
  llamada : Llamada
  respuesta : Respuesta
deriving Repr

/-- The state of the process and of its environment: the global
`familia_direcciones`, `errno`, the descriptors currently open, the lines
written to `stderr`, and the system calls made so far. -/
structure Mundo where
  familia_direcciones : Familia_direcciones
  errno : Int
  abiertos : List Int
  stderr : List String
  traza : List Evento
deriving Repr

/-- The environment: the operating system, an arbitrary function of the calls
made so far and of the call being made, and the message tables of the C
library. -/
structure SO where
  responder : List Evento → Llamada → Respuesta
  strerror : Int → String
  gai_strerror : Int → String

/-- The outcome of a function: it returns `v` to its caller, or it ends the
process through `exit(estado)`. -/
inductive Resultado (α : Type) where
  | retorna (v : α) (w : Mundo)
  | termina (estado : Int) (w : Mundo)

namespace Resultado

/-- Sequencing: the continuation runs only when the first part returned. -/
def luego {α β : Type} (x : Resultado α) (f : α → Mundo → Resultado β) : Resultado β :=
  match x with
  | retorna v w => f v w
  | termina e w => termina e w

/-- The world in which the function returned or the process ended. -/
def mundo {α : Type} : Resultado α → Mundo
  | retorna _ w => w
  | termina _ w => w

/-- The value returned, when the function returned. -/
def valor? {α : Type} : Resultado α → Option α
  | retorna v _ => some v
  | termina _ _ => none

/-- The function ended the process. -/
def terminado {α : Type} : Resultado α → Bool
  | retorna _ _ => false
  | termina _ _ => true

end Resultado

/-- Effect of a call on the set of open descriptors: a successful `socket` or
`accept` opens the descriptor it returns, `close` releases its argument. -/
def actualizar_abiertos (abiertos : List Int) (c : Llamada) (r : Respuesta) : List Int :=
  match c with
  | .socket _ _ _ => if r.valor = -1 then abiertos else r.valor :: abiertos
  | .accept _ _ => if r.valor = -1 then abiertos else r.valor :: abiertos
  | .close d => abiertos.filter (fun x => x ≠ d)
  | _ => abiertos

/-- One system call: the operating system answers, the call is appended to the
trace, `errno` and the open descriptors are updated. -/
def llamar (so : SO) (w : Mundo) (c : Llamada) : Respuesta × Mundo :=
  let r := so.responder w.traza c
  (r, { w with
          errno := r.errno
          abiertos := actualizar_abiertos w.abiertos c r
          traza := w.traza ++ [⟨c, r⟩] })

/-- The call `fprintf(stderr, ...)` with the text already formatted. -/
def fprintf_stderr (w : Mundo) (texto : String) : Mundo :=
  { w with stderr := w.stderr ++ [texto] }

/-! ## STREAM and DGRAM input and output -/

/-- The function `enviar_datos_stream`: one `send`, a diagnostic on `-1`. -/
def enviar_datos_stream (so : SO) (w : Mundo) (descriptor : Int) (buffer : List Byte)
    (tam_buffer bandera : Int) : Resultado Int :=
  let (r, w1) := llamar so w (.send descriptor buffer tam_buffer bandera)
  let bytes_enviados := r.valor
  let w2 :=
    if bytes_enviados = -1 then
      fprintf_stderr w1 ("\nError al enviar datos(send): " ++ so.strerror w1.errno ++ "\n")
    else w1
  .retorna bytes_enviados w2

/-- The function `recibir_datos_stream`: one `recv`; on `-1` a diagnostic
unless `bandera` equals `MSG_DONTWAIT`.  Returns the count and the buffer. -/
def recibir_datos_stream (so : SO) (w : Mundo) (descriptor : Int) (buffer : List Byte)
    (tam_buffer bandera : Int) : Resultado (Int × List Byte) :=
  let (r, w1) := llamar so w (.recv descriptor buffer tam_buffer bandera)
  let bytes_recibidos := r.valor
  let w2 :=
    if bytes_recibidos = -1 then
      if bandera ≠ MSG_DONTWAIT then
        fprintf_stderr w1 ("\nError al recibir datos(recvfrom): " ++ so.strerror w1.errno ++ "\n")
      else w1
    else w1
  .retorna (bytes_recibidos, r.datos) w2

/-- The function `recibir_datos_dgram`: one `recvfrom`; on `-1` a diagnostic
unless `bandera` equals `MSG_DONTWAIT`.  Returns the count, the buffer and the
address of the sender. -/
def recibir_datos_dgram (so : SO) (w : Mundo) (descriptor : Int) (buffer : List Byte)
    (tam_buffer bandera : Int) : Resultado (Int × List Byte × sockaddr) :=
  let tam_dir := tam_sockaddr_storage
  let (r, w1) := llamar so w (.recvfrom descriptor buffer tam_buffer bandera tam_dir)
  let bytes_recibidos := r.valor
  let w2 :=
    if bytes_recibidos = -1 then
      if bandera ≠ MSG_DONTWAIT then
        fprintf_stderr w1 ("\nError al recibir datos(recvfrom): " ++ so.strerror w1.errno ++ "\n")
      else w1
    else w1
  .retorna (bytes_recibidos, r.datos, r.origen) w2

/-- The function `enviar_datos_dgram`: one `sendto` to the address of the
node `info_destino`, a diagnostic on `-1`. -/
def enviar_datos_dgram (so : SO) (w : Mundo) (descriptor : Int) (info_destino : addrinfo)
    (buffer : List Byte) (tam_buffer bandera : Int) : Resultado Int :=
  let (r, w1) := llamar so w
    (.sendto descriptor buffer tam_buffer bandera info_destino.ai_addr info_destino.ai_addrlen)
  let bytes_enviados := r.valor
  let w2 :=
    if bytes_enviados = -1 then
      fprintf_stderr w1 ("\nError al enviar datos(sendto): " ++ so.strerror w1.errno ++ "\n")
    else w1
  .retorna bytes_enviados w2

/-! ## Address resolution and socket set-up -/

/-- The function `crear_estructura_referencia`: zeroed hints with the family
of the global selection, the socket type asked for and the flag `AI_PASSIVE`. -/
def crear_estructura_referencia (w : Mundo) (tipo_socket : Int) : addrinfo :=
  let ai_family := if w.familia_direcciones = .kIPV4 then AF_INET else AF_INET6
  .mk AI_PASSIVE ai_family tipo_socket 0 0 none none none

/-- The function `obtener_direccion`: one `getaddrinfo`; a result other than
`0` writes two diagnostics and ends the process. -/
def obtener_direccion (so : SO) (w : Mundo) (ip_host : Option String) (puerto : String)
    (referencia : addrinfo) : Resultado addrinfo :=
  let (r, w1) := llamar so w (.getaddrinfo ip_host puerto referencia)
  let res := r.valor
  if res ≠ 0 then
    let w2 := fprintf_stderr w1
      ("\nError al obtener información con getaddrinfo: " ++ so.gai_strerror res ++ "\n")
    let w3 := fprintf_stderr w2 (so.strerror w2.errno ++ "\n")
    .termina EXIT_FAILURE w3
  else
    .retorna r.direcciones w1

/-- The function `crear_socket`: one `socket` from the fields of the node;
`-1` writes a diagnostic and ends the process. -/
def crear_socket (so : SO) (w : Mundo) (info_direccion : addrinfo) : Resultado Int :=
  let (r, w1) := llamar so w
    (.socket info_direccion.ai_family info_direccion.ai_socktype info_direccion.ai_protocol)
  let descriptor := r.valor
  if descriptor = -1 then
    let w2 := fprintf_stderr w1 ("\nError al crear socket: " ++ so.strerror w1.errno ++ "\n")
    .termina EXIT_FAILURE w2
  else
    .retorna descriptor w1

/-- The function `asociar_socket`: one `bind`; `-1` closes the descriptor,
writes a diagnostic and ends the process. -/
def asociar_socket (so : SO) (w : Mundo) (descriptor : Int) (info_direccion : addrinfo) :
    Resultado Int :=
  let (r, w1) := llamar so w
    (.bind descriptor info_direccion.ai_addr info_direccion.ai_addrlen)
  let valor_retorno := r.valor
  if valor_retorno = -1 then
    let (_, w2) := llamar so w1 (.close descriptor)
    let w3 := fprintf_stderr w2
      ("\nError al asociar(bind) socket: " ++ so.strerror w2.errno ++ "\n")
    .termina EXIT_FAILURE w3
  else
    .retorna valor_retorno w1

/-- The function `inicializar_servidor`: resolve with host `NULL`, create the
socket, set `SO_REUSEADDR`, bind; returns the descriptor. -/
def inicializar_servidor (so : SO) (w : Mundo) (puerto : String) (tipo_socket : Int) :
    Resultado Int :=
  (obtener_direccion so w none puerto (crear_estructura_referencia w tipo_socket)).luego
    fun info_servidor w1 =>
  (crear_socket so w1 info_servidor).luego fun descriptor w2 =>
  let yes : Int := 1
  let (r, w3) := llamar so w2 (.setsockopt descriptor SOL_SOCKET SO_REUSEADDR yes tam_int)
  if r.valor = -1 then
    let (_, w4) := llamar so w3 (.close descriptor)
    let w5 := fprintf_stderr w4
      ("\nError al establecer operación(setsockopt) a socket: " ++ so.strerror w4.errno ++ "\n")
    .termina EXIT_FAILURE w5
  else
    (asociar_socket so w3 descriptor info_servidor).luego fun _ w4 =>
    .retorna descriptor w4

/-- The function `inicializar_cliente`: resolve the destination and create
the socket; returns the descriptor and, through `info_destino`, the chain. -/
def inicializar_cliente (so : SO) (w : Mundo) (ip_destino : Option String) (puerto : String)
    (tipo_socket : Int) : Resultado (Int × addrinfo) :=
  (obtener_direccion so w ip_destino puerto (crear_estructura_referencia w tipo_socket)).luego
    fun info_destino w1 =>
  (crear_socket so w1 info_destino).luego fun descriptor w2 =>
  .retorna (descriptor, info_destino) w2

/-- The function `aceptar`: one `accept`; `-1` closes the listening
descriptor, writes a diagnostic and ends the process.  Returns the new
descriptor and the address of the peer. -/
def aceptar (so : SO) (w : Mundo) (descriptor : Int) : Resultado (Int × sockaddr) :=
  let tam_dir := tam_sockaddr_storage
  let (r, w1) := llamar so w (.accept descriptor tam_dir)
  let descriptor_cliente := r.valor
  if descriptor_cliente = -1 then
    let (_, w2) := llamar so w1 (.close descriptor)
    let w3 := fprintf_stderr w2
      ("\nError al aceptar(accept) conexión: " ++ so.strerror w2.errno ++ "\n")
    .termina EXIT_FAILURE w3
  else
    .retorna (descriptor_cliente, r.origen) w1

/-! ## Printable addresses -/

/-- The function `extraer_direccion_sockaddr`: a pointer to the field
`sin_addr` (offset 4 of `struct sockaddr_in`) when the tag is `AF_INET`, to
the field `sin6_addr` (offset 8 of `struct sockaddr_in6`) otherwise.  The
pointer is the memory of the structure from that offset on. -/
def extraer_direccion_sockaddr (sa : sockaddr) : List Byte :=
  if sa.sa_family = AF_INET then
    sa.sa_data.drop 2
  else
    sa.sa_data.drop 6

/-- Model of the C library's `inet_ntop4`: the four bytes at `src` printed
with the format `%u.%u.%u.%u`; `none` when the text and its terminator do not
fit in `size` bytes (or `src` is shorter than the field). -/
def inet_ntop4 (src : List Byte) (size : Nat) : Option String :=
  match src with
  | a :: b :: c :: d :: _ =>
    let tmp := toString a.val ++ "." ++ toString b.val ++ "." ++ toString c.val ++ "."
      ++ toString d.val
    if tmp.length ≥ size then none else some tmp
  | _ => none

/-- The sixteen-bit words of an IPv6 address, most significant byte first. -/
def palabras : List Byte → List Nat
  | a :: b :: resto => (a.val * 256 + b.val) :: palabras resto
  | _ => []

/-- A run of zero words: its first index (`-1` for no run) and its length. -/
structure Racha where
  base : Int
  len : Int
deriving DecidableEq, Repr

/-- One iteration of the scan of `inet_ntop6` for the longest run of zeros:
`st` is `(best, cur)`, `iw` the index and the word at it. -/
def paso_racha (st : Racha × Racha) (iw : Nat × Nat) : Racha × Racha :=
  let best := st.1
  let cur := st.2
  if iw.2 = 0 then
    if cur.base = -1 then (best, ⟨iw.1, 1⟩) else (best, { cur with len := cur.len + 1 })
  else if cur.base ≠ -1 then
    if best.base = -1 ∨ cur.len > best.len then (cur, { cur with base := -1 })
    else (best, { cur with base := -1 })
  else (best, cur)

/-- The run that `inet_ntop6` abbreviates: the longest, leftmost run of zero
words, dropped when shorter than two words. -/
def mejor_racha (words : List Nat) : Racha :=
  let st := words.enum.foldl paso_racha (⟨-1, 0⟩, ⟨-1, 0⟩)
  let best := st.1
  let cur := st.2
  let best := if cur.base ≠ -1 ∧ (best.base = -1 ∨ cur.len > best.len) then cur else best
  if best.base ≠ -1 ∧ best.len < 2 then { best with base := -1 } else best

/-- The conversion `%x` of `sprintf`. -/
def hex (n : Nat) : String := String.mk (Nat.toDigits 16 n)

/-- The formatting loop of `inet_ntop6` over the remaining words, `tp` being
the text written so far. -/
def formatear6 (src : List Byte) (words : List Nat) (best : Racha) :
    List (Nat × Nat) → String → Option String
  | [], tp => some tp
  | (i, palabra) :: resto, tp =>
    if best.base ≠ -1 ∧ (i : Int) ≥ best.base ∧ (i : Int) < best.base + best.len then
      formatear6 src words best resto (if (i : Int) = best.base then tp ++ ":" else tp)
    else
      let tp := if i ≠ 0 then tp ++ ":" else tp
      if i = 6 ∧ best.base = 0 ∧
          (best.len = 6 ∨ (best.len = 5 ∧ words.getD 5 0 = 0xffff)) then
        match inet_ntop4 (src.drop 12) (INET6_ADDRSTRLEN - tp.length) with
        | none => none
        | some v4 => some (tp ++ v4)
      else
        formatear6 src words best resto (tp ++ hex palabra)

/-- Model of the C library's `inet_ntop6`: colon-separated hexadecimal words,
the longest run of zeros written `::`, an embedded IPv4 address in dotted
form; `none` when the text and its terminator do not fit in `size` bytes. -/
def inet_ntop6 (src : List Byte) (size : Nat) : Option String :=
  if src.length < 16 then none
  else
    let words := palabras (src.take 16)
    let best := mejor_racha words
    match formatear6 src words best words.enum "" with
    | none => none
    | some tp =>
      let tp := if best.base ≠ -1 ∧ best.base + best.len = 8 then tp ++ ":" else tp
      if tp.length + 1 > size then none else some tp

/-- Model of the C library's `inet_ntop`: dispatch on the family; `none` is
the result `NULL` (family not supported, or no room). -/
def inet_ntop (af : Int) (src : List Byte) (size : Nat) : Option String :=
  if af = AF_INET then inet_ntop4 src size
  else if af = AF_INET6 then inet_ntop6 src size
  else none

/-- The function `obtener_direccion_imprimible`: the buffer `ip` after
`inet_ntop(sa->sa_family, extraer_direccion_sockaddr(sa), ip,
INET6_ADDRSTRLEN)`; `none` when `inet_ntop` wrote nothing, the buffer being
then uninitialised. -/
def obtener_direccion_imprimible (sa : sockaddr) : Option String :=
  inet_ntop sa.sa_family (extraer_direccion_sockaddr sa) INET6_ADDRSTRLEN

/-! ## Standard input -/

/-- The constant `EOF` of `<stdio.h>`. -/
def EOF : Int := -1

/-- The function `getchar` of the C library on a finite input stream: the
next byte as an `int` and the rest of the stream, or `EOF` at the end. -/
def getchar (entrada : List Byte) : Int × List Byte :=
  match entrada with
  | [] => (EOF, [])
  | c :: resto => ((c.val : Int), resto)

/-- The loop `while ((getchar() != '\n') && (getchar() != EOF));` of
`clear_buffer`, at most `pasos` iterations: the input left unread when the
loop ends, `none` when the iterations ran out. -/
def clear_buffer_bucle : Nat → List Byte → Option (List Byte)
  | 0, _ => none
  | pasos + 1, entrada =>
    let (c1, e1) := getchar entrada
    if c1 ≠ 10 then
      let (c2, e2) := getchar e1
      if c2 ≠ EOF then clear_buffer_bucle pasos e2 else some e2
    else some e1

/-- The function `clear_buffer`: the loop with one iteration more than there
are bytes of input. -/
def clear_buffer (entrada : List Byte) : Option (List Byte) :=
  clear_buffer_bucle (entrada.length + 1) entrada

/-! ## The receive loop of the stream server -/

/-- The constant `kMaxBuffer` of `servidor_stream.c`. -/
def kMaxBuffer : Int := 100

/-- The assignment `buffer[i] = v` on a buffer of `tam` bytes: `none` when
the index is outside the buffer. -/
def escribir (tam : Int) (buffer : List Byte) (i : Int) (v : Byte) : Option (List Byte) :=
  if 0 ≤ i ∧ i < tam then some (buffer.set i.toNat v) else none

/-- One iteration of the loop of `main` in `servidor_stream.c`, up to the
write of the terminator: `recibir_datos_stream` for at most `kMaxBuffer-1`
bytes with `bandera = 0`, then `buffer[bytes_recibidos] = 0`.  Returns the
count and the buffer after the write (`none` for a write outside it). -/
def servidor_stream_iteracion (so : SO) (w : Mundo) (descriptor_cliente : Int)
    (buffer : List Byte) : Resultado (Int × Option (List Byte)) :=
  (recibir_datos_stream so w descriptor_cliente buffer (kMaxBuffer - 1) 0).luego
    fun recibido w1 =>
  let bytes_recibidos := recibido.1
  .retorna (bytes_recibidos, escribir kMaxBuffer recibido.2 bytes_recibidos 0) w1

/-! ## Concrete environments used to exercise the model -/

/-- An empty `struct sockaddr_storage`. -/
def sockaddr_vacio : sockaddr := ⟨0, []⟩

/-- The raw IPv4 address `127.0.0.1`, port 6666, as `struct sockaddr_in`. -/
def loopback4 : sockaddr := ⟨AF_INET, [0x1a, 0x0a, 127, 0, 0, 1, 0, 0, 0, 0, 0, 0, 0, 0]⟩

/-- The raw IPv6 address `::1`, port 6666, as `struct sockaddr_in6`. -/
def loopback6 : sockaddr :=
  ⟨AF_INET6, [0x1a, 0x0a, 0, 0, 0, 0,
    0, 0, 0, 0, 0, 0, 0, 0, 0, 0, 0, 0, 0, 0, 0, 1,
    0, 0, 0, 0]⟩

/-- The raw IPv4 wildcard address, port 6666. -/
def comodin4 : sockaddr := ⟨AF_INET, [0x1a, 0x0a, 0, 0, 0, 0, 0, 0, 0, 0, 0, 0, 0, 0]⟩

/-- A one-node chain for the IPv4 wildcard, stream sockets. -/
def info_comodin4 : addrinfo := .mk AI_PASSIVE AF_INET SOCK_STREAM 6 16 (some comodin4) none none

/-- The world at the start of a process: IPv4 selected, the three standard
descriptors open, nothing written, no call made. -/
def mundo_inicial : Mundo := ⟨.kIPV4, 0, [0, 1, 2], [], []⟩

/-- A world in which descriptor 3 is a listening socket. -/
def mundo_escucha : Mundo := ⟨.kIPV4, 0, [3, 0, 1, 2], [], []⟩

/-- An answer carrying only a value and an `errno`. -/
def respuesta_simple (valor errno : Int) : Respuesta :=
  ⟨valor, errno, info_comodin4, [], sockaddr_vacio⟩

/-- Message tables that print the number. -/
def mensaje (e : Int) : String := "E" ++ toString e

/-- An operating system in which every call succeeds: `socket` and `accept`
hand out descriptor `3 + n` after `n` earlier calls, transfers move five
bytes, everything else answers `0`. -/
def so_exito : SO where
  responder := fun traza c =>
    match c with
    | .socket _ _ _ => respuesta_simple (3 + traza.length) 0
    | .accept _ _ => ⟨4 + traza.length, 0, info_comodin4, [], loopback4⟩
    | .send _ _ _ _ => respuesta_simple 5 0
    | .sendto _ _ _ _ _ _ => respuesta_simple 5 0
    | .recv _ _ _ _ => ⟨5, 0, info_comodin4, [104, 111, 108, 97, 10], sockaddr_vacio⟩
    | .recvfrom _ _ _ _ _ => ⟨5, 0, info_comodin4, [104, 111, 108, 97, 10], loopback4⟩
    | _ => respuesta_simple 0 0
  strerror := mensaje
  gai_strerror := mensaje

/-- An operating system in which every call fails with `-1` and the given
`errno`; `close` succeeds. -/
def so_falla (errno : Int) : SO where
  responder := fun _ c =>
    match c with
    | .close _ => respuesta_simple 0 errno
    | _ => respuesta_simple (-1) errno
  strerror := mensaje
  gai_strerror := mensaje

/-- An operating system that answers like `so_exito` for the first `k` calls
of the process and fails every later call except `close`. -/
def so_falla_desde (k : Nat) (errno : Int) : SO where
  responder := fun traza c =>
    if traza.length < k then so_exito.responder traza c
    else (so_falla errno).responder traza c
  strerror := mensaje
  gai_strerror := mensaje

/-- A raw IPv4 address `192.168.0.7`, port 6666. -/
def destino4 : sockaddr := ⟨AF_INET, [0x1a, 0x0a, 192, 168, 0, 7, 0, 0, 0, 0, 0, 0, 0, 0]⟩

/-- A chain of two datagram candidates: `192.168.0.7`, then `127.0.0.1`. -/
def info_dos_candidatos : addrinfo :=
  .mk 0 AF_INET SOCK_DGRAM 17 16 (some destino4) none
    (some (.mk 0 AF_INET SOCK_DGRAM 17 16 (some loopback4) none none))

/-- An operating system for a datagram client: the resolver answers with the
chain of two candidates, `socket` hands out descriptor 3 and `sendto` sends
everything it is given. -/
def so_dgram : SO where
  responder := fun _ c =>
    match c with
    | .getaddrinfo _ _ _ => ⟨0, 0, info_dos_candidatos, [], sockaddr_vacio⟩
    | .socket _ _ _ => respuesta_simple 3 0
    | .sendto _ _ tam _ _ _ => respuesta_simple tam 0
    | _ => respuesta_simple 0 0
  strerror := mensaje
  gai_strerror := mensaje

/-! ## Vocabulary of the statements -/

/-- The candidates of a chain, in the order of the links `ai_next`. -/
def candidatos : addrinfo → List addrinfo
  | .mk f fam t p l a c none => [.mk f fam t p l a c none]
  | .mk f fam t p l a c (some sig) => .mk f fam t p l a c (some sig) :: candidatos sig

/-- The field `sin_addr` of a raw address seen as `struct sockaddr_in`: the
four bytes at offset 4. -/
def sin_addr (sa : sockaddr) : List Byte := (sa.sa_data.drop 2).take 4

/-- The field `sin6_addr` of a raw address seen as `struct sockaddr_in6`: the
sixteen bytes at offset 8. -/
def sin6_addr (sa : sockaddr) : List Byte := (sa.sa_data.drop 6).take 16

/-- The flags ask for a non-blocking operation: the bit `MSG_DONTWAIT` is
set. -/
def pide_no_bloqueante (bandera : Int) : Bool := Int.land bandera MSG_DONTWAIT ≠ 0

/-- The condition under which a receive function writes its diagnostic, on
the result `r` of the system call and the flags `b`. -/
def escribe_diagnostico (r b : Int) : Bool := decide (r = -1 ∧ b ≠ MSG_DONTWAIT)

/-- The diagnostic of the two receive functions for a value of `errno`. -/
def diagnostico_recibir (so : SO) (errno : Int) : String :=
  "\nError al recibir datos(recvfrom): " ++ so.strerror errno ++ "\n"

/-- The count that a receive operation returned. -/
def cuenta? {α β : Type} (x : Resultado (α × β)) : Option α :=
  x.valor?.map Prod.fst

/-- What a caller of a receive operation can observe of it: the count
returned and the diagnostics on `stderr`. -/
def observable {α β : Type} (x : Resultado (α × β)) : Option α × List String :=
  (cuenta? x, x.mundo.stderr)

/-! ## Theorems -/

/-- C1: a non-blocking `recibir_datos_stream` (`bandera = MSG_DONTWAIT`) for
which the operating system reports `-1` returns `-1` to its caller, writes
nothing to `stderr` and does not end the process. -/
theorem recibir_datos_stream_no_bloqueante_sin_datos (so : SO) (w : Mundo) (descriptor : Int)
    (buffer : List Byte) (tam_buffer : Int)
    (h : (so.responder w.traza (.recv descriptor buffer tam_buffer MSG_DONTWAIT)).valor = -1) :
    cuenta? (recibir_datos_stream so w descriptor buffer tam_buffer MSG_DONTWAIT) = some (-1) ∧
    (recibir_datos_stream so w descriptor buffer tam_buffer MSG_DONTWAIT).mundo.stderr
      = w.stderr ∧
    (recibir_datos_stream so w descriptor buffer tam_buffer MSG_DONTWAIT).terminado = false := by
  simp [recibir_datos_stream, llamar, cuenta?, Resultado.valor?, Resultado.mundo,
    Resultado.terminado, h]

/-- Witness of C1: descriptor 3 with nothing pending (`EAGAIN`). -/
theorem recibir_datos_stream_no_bloqueante_sin_datos_witness :
    ((so_falla EAGAIN).responder mundo_inicial.traza (.recv 3 [] 99 MSG_DONTWAIT)).valor = -1 ∧
    cuenta? (recibir_datos_stream (so_falla EAGAIN) mundo_inicial 3 [] 99 MSG_DONTWAIT)
      = some (-1) ∧
    (recibir_datos_stream (so_falla EAGAIN) mundo_inicial 3 [] 99 MSG_DONTWAIT).mundo.stderr
      = mundo_inicial.stderr ∧
    (recibir_datos_stream (so_falla EAGAIN) mundo_inicial 3 [] 99 MSG_DONTWAIT).terminado
      = false :=
  ⟨by decide,
    recibir_datos_stream_no_bloqueante_sin_datos (so_falla EAGAIN) mundo_inicial 3 [] 99
      (by decide)⟩

/-- C2: a blocking `recibir_datos_stream` (`bandera = 0`) returns the result
`r` of the operating system unchanged and never ends the process; it writes
one diagnostic to `stderr` when `r = -1` and nothing for every other `r`,
`0` included. -/
theorem recibir_datos_stream_bloqueante (so : SO) (w : Mundo) (descriptor : Int)
    (buffer : List Byte) (tam_buffer : Int) :
    cuenta? (recibir_datos_stream so w descriptor buffer tam_buffer 0)
      = some (so.responder w.traza (.recv descriptor buffer tam_buffer 0)).valor ∧
    (recibir_datos_stream so w descriptor buffer tam_buffer 0).terminado = false ∧
    (recibir_datos_stream so w descriptor buffer tam_buffer 0).mundo.stderr
      = if (so.responder w.traza (.recv descriptor buffer tam_buffer 0)).valor = -1 then
          w.stderr ++ ["\nError al recibir datos(recvfrom): "
            ++ so.strerror (so.responder w.traza (.recv descriptor buffer tam_buffer 0)).errno
            ++ "\n"]
        else w.stderr := by
  by_cases h : (so.responder w.traza (.recv descriptor buffer tam_buffer 0)).valor = -1 <;>
    simp [recibir_datos_stream, llamar, cuenta?, Resultado.valor?, Resultado.mundo,
      Resultado.terminado, fprintf_stderr, MSG_DONTWAIT, h]

/-- C3 (counterexample): on descriptor 3 in non-blocking mode, "no data
pending" (`-1` with `EAGAIN`) and a genuine failure (`-1` with `EBADF`) give
the same observable result, for `recibir_datos_stream` and for
`recibir_datos_dgram`: `-1` returned, nothing written. -/
theorem recibir_no_bloqueante_indistinguible_ejemplo :
    ((so_falla EAGAIN).responder mundo_inicial.traza (.recv 3 [] 99 MSG_DONTWAIT)).errno
      = EAGAIN ∧
    ((so_falla EBADF).responder mundo_inicial.traza (.recv 3 [] 99 MSG_DONTWAIT)).errno
      = EBADF ∧
    observable (recibir_datos_stream (so_falla EAGAIN) mundo_inicial 3 [] 99 MSG_DONTWAIT)
      = observable (recibir_datos_stream (so_falla EBADF) mundo_inicial 3 [] 99 MSG_DONTWAIT) ∧
    observable (recibir_datos_dgram (so_falla EAGAIN) mundo_inicial 3 [] 99 MSG_DONTWAIT)
      = observable (recibir_datos_dgram (so_falla EBADF) mundo_inicial 3 [] 99 MSG_DONTWAIT) := by
  decide

/-- C3 (amended): in non-blocking mode (`bandera = MSG_DONTWAIT`) every `-1`
of the operating system, whatever its cause, has the same observable result:
under two operating systems that both report `-1`, `recibir_datos_stream` and
`recibir_datos_dgram` return `-1` and leave `stderr` as it was; the cause is
visible only in `errno`, which is the one the operating system set. -/
theorem recibir_no_bloqueante_mismo_observable (so_a so_b : SO) (w : Mundo) (descriptor : Int)
    (buffer : List Byte) (tam_buffer : Int)
    (ha : (so_a.responder w.traza (.recv descriptor buffer tam_buffer MSG_DONTWAIT)).valor = -1)
    (hb : (so_b.responder w.traza (.recv descriptor buffer tam_buffer MSG_DONTWAIT)).valor = -1)
    (ha_dgram : (so_a.responder w.traza
      (.recvfrom descriptor buffer tam_buffer MSG_DONTWAIT tam_sockaddr_storage)).valor = -1)
    (hb_dgram : (so_b.responder w.traza
      (.recvfrom descriptor buffer tam_buffer MSG_DONTWAIT tam_sockaddr_storage)).valor = -1) :
    observable (recibir_datos_stream so_a w descriptor buffer tam_buffer MSG_DONTWAIT)
      = (some (-1), w.stderr) ∧
    observable (recibir_datos_stream so_b w descriptor buffer tam_buffer MSG_DONTWAIT)
      = (some (-1), w.stderr) ∧
    observable (recibir_datos_dgram so_a w descriptor buffer tam_buffer MSG_DONTWAIT)
      = (some (-1), w.stderr) ∧
    observable (recibir_datos_dgram so_b w descriptor buffer tam_buffer MSG_DONTWAIT)
      = (some (-1), w.stderr) ∧
    (recibir_datos_stream so_a w descriptor buffer tam_buffer MSG_DONTWAIT).mundo.errno
      = (so_a.responder w.traza (.recv descriptor buffer tam_buffer MSG_DONTWAIT)).errno ∧
    (recibir_datos_dgram so_a w descriptor buffer tam_buffer MSG_DONTWAIT).mundo.errno
      = (so_a.responder w.traza
          (.recvfrom descriptor buffer tam_buffer MSG_DONTWAIT tam_sockaddr_storage)).errno := by
  simp [observable, recibir_datos_stream, recibir_datos_dgram, llamar, cuenta?,
    Resultado.valor?, Resultado.mundo, ha, hb, ha_dgram, hb_dgram]

/-- Witness of C3 (amended): `EAGAIN` against `EBADF` on descriptor 3. -/
theorem recibir_no_bloqueante_mismo_observable_witness :
    observable (recibir_datos_stream (so_falla EAGAIN) mundo_inicial 3 [] 99 MSG_DONTWAIT)
      = (some (-1), mundo_inicial.stderr) ∧
    observable (recibir_datos_stream (so_falla EBADF) mundo_inicial 3 [] 99 MSG_DONTWAIT)
      = (some (-1), mundo_inicial.stderr) ∧
    observable (recibir_datos_dgram (so_falla EAGAIN) mundo_inicial 3 [] 99 MSG_DONTWAIT)
      = (some (-1), mundo_inicial.stderr) ∧
    observable (recibir_datos_dgram (so_falla EBADF) mundo_inicial 3 [] 99 MSG_DONTWAIT)
      = (some (-1), mundo_inicial.stderr) ∧
    (recibir_datos_stream (so_falla EAGAIN) mundo_inicial 3 [] 99 MSG_DONTWAIT).mundo.errno
      = ((so_falla EAGAIN).responder mundo_inicial.traza
          (.recv 3 [] 99 MSG_DONTWAIT)).errno ∧
    (recibir_datos_dgram (so_falla EAGAIN) mundo_inicial 3 [] 99 MSG_DONTWAIT).mundo.errno
      = ((so_falla EAGAIN).responder mundo_inicial.traza
          (.recvfrom 3 [] 99 MSG_DONTWAIT tam_sockaddr_storage)).errno :=
  recibir_no_bloqueante_mismo_observable (so_falla EAGAIN) (so_falla EBADF) mundo_inicial 3 []
    99 (by decide) (by decide) (by decide) (by decide)

/-- C4: `enviar_datos_stream` makes exactly one system call, the `send` with
the descriptor, buffer, length and flags it was given, and returns the count
of the operating system unchanged, whatever that count is (a count below the
length asked for included: nothing is sent again). -/
theorem enviar_datos_stream_una_llamada (so : SO) (w : Mundo) (descriptor : Int)
    (buffer : List Byte) (tam_buffer bandera : Int) :
    (enviar_datos_stream so w descriptor buffer tam_buffer bandera).valor?
      = some (so.responder w.traza (.send descriptor buffer tam_buffer bandera)).valor ∧
    (enviar_datos_stream so w descriptor buffer tam_buffer bandera).mundo.traza
      = w.traza ++ [⟨.send descriptor buffer tam_buffer bandera,
          so.responder w.traza (.send descriptor buffer tam_buffer bandera)⟩] := by
  by_cases h : (so.responder w.traza (.send descriptor buffer tam_buffer bandera)).valor = -1 <;>
    simp [enviar_datos_stream, llamar, Resultado.valor?, Resultado.mundo, fprintf_stderr, h]

/-- C5: each of the four input and output operations returns to its caller
under every operating system (so also for a descriptor already closed), never
ending the process, and the value returned is the one of the system call: the
sentinel `-1` whenever that call fails. -/
theorem entrada_salida_retorna (so : SO) (w : Mundo) (descriptor : Int) (buffer : List Byte)
    (tam_buffer bandera : Int) (info_destino : addrinfo) :
    ((enviar_datos_stream so w descriptor buffer tam_buffer bandera).terminado = false ∧
      (enviar_datos_stream so w descriptor buffer tam_buffer bandera).valor?
        = some (so.responder w.traza (.send descriptor buffer tam_buffer bandera)).valor) ∧
    ((recibir_datos_stream so w descriptor buffer tam_buffer bandera).terminado = false ∧
      cuenta? (recibir_datos_stream so w descriptor buffer tam_buffer bandera)
        = some (so.responder w.traza (.recv descriptor buffer tam_buffer bandera)).valor) ∧
    ((enviar_datos_dgram so w descriptor info_destino buffer tam_buffer bandera).terminado
        = false ∧
      (enviar_datos_dgram so w descriptor info_destino buffer tam_buffer bandera).valor?
        = some (so.responder w.traza (.sendto descriptor buffer tam_buffer bandera
            info_destino.ai_addr info_destino.ai_addrlen)).valor) ∧
    ((recibir_datos_dgram so w descriptor buffer tam_buffer bandera).terminado = false ∧
      cuenta? (recibir_datos_dgram so w descriptor buffer tam_buffer bandera)
        = some (so.responder w.traza
            (.recvfrom descriptor buffer tam_buffer bandera tam_sockaddr_storage)).valor) := by
  simp [enviar_datos_stream, recibir_datos_stream, enviar_datos_dgram, recibir_datos_dgram,
    llamar, cuenta?, Resultado.valor?, Resultado.terminado]

/-- The four operations on a descriptor that is no longer open, the operating
system answering `-1` with `EBADF`: each returns `-1` and the process goes on;
the blocking receive and the two sends each write one diagnostic. -/
theorem entrada_salida_descriptor_cerrado_ejemplo :
    (enviar_datos_stream (so_falla EBADF) mundo_inicial 7 [104, 105] 2 0).valor? = some (-1) ∧
    cuenta? (recibir_datos_stream (so_falla EBADF) mundo_inicial 7 [] 99 0) = some (-1) ∧
    (enviar_datos_dgram (so_falla EBADF) mundo_inicial 7 info_comodin4 [104, 105] 2 0).valor?
      = some (-1) ∧
    cuenta? (recibir_datos_dgram (so_falla EBADF) mundo_inicial 7 [] 99 0) = some (-1) ∧
    (recibir_datos_stream (so_falla EBADF) mundo_inicial 7 [] 99 0).mundo.stderr
      = ["\nError al recibir datos(recvfrom): E9\n"] ∧
    (enviar_datos_stream (so_falla EBADF) mundo_inicial 7 [104, 105] 2 0).mundo.stderr
      = ["\nError al enviar datos(send): E9\n"] := by
  decide

/-- A partial write: asked to send 99 bytes, the operating system takes 5;
`enviar_datos_stream` returns 5, writes nothing and has made one `send`. -/
theorem enviar_datos_stream_parcial_ejemplo :
    (enviar_datos_stream so_exito mundo_inicial 4 [104, 111, 108, 97, 10] 99 0).valor? = some 5 ∧
    (enviar_datos_stream so_exito mundo_inicial 4 [104, 111, 108, 97, 10] 99 0).mundo.stderr
      = [] ∧
    (enviar_datos_stream so_exito mundo_inicial 4 [104, 111, 108, 97, 10] 99 0).mundo.traza.length
      = 1 := by
  decide

/-- The four failure paths of `inicializar_servidor` are taken: when the
resolution, the creation, `setsockopt` or `bind` fails, the process ends with
`EXIT_FAILURE` and only the three standard descriptors are open. -/
theorem inicializar_servidor_caminos_de_fallo :
    ∀ k ∈ [0, 1, 2, 3],
      (inicializar_servidor (so_falla_desde k 98) mundo_inicial "6666" SOCK_STREAM).terminado
        = true ∧
      (inicializar_servidor (so_falla_desde k 98) mundo_inicial "6666" SOCK_STREAM).mundo.abiertos
        = [0, 1, 2] := by
  decide

/-- C7: when every system call succeeds, `inicializar_servidor` makes exactly
four calls, in this order: `getaddrinfo` with host `NULL`; `socket` with the
family, type and protocol of the first node resolved; `setsockopt` enabling
`SO_REUSEADDR` on the new descriptor; `bind` of that descriptor to the address
of the same first node.  No `listen` is made, nothing is written to `stderr`,
and the value returned is the descriptor that `socket` produced. -/
theorem inicializar_servidor_secuencia (so : SO) (w : Mundo) (puerto : String)
    (tipo_socket : Int) (r1 r2 r3 r4 : Respuesta)
    (h1 : so.responder w.traza
      (.getaddrinfo none puerto (crear_estructura_referencia w tipo_socket)) = r1)
    (h2 : so.responder
      (w.traza ++ [⟨.getaddrinfo none puerto (crear_estructura_referencia w tipo_socket), r1⟩])
      (.socket r1.direcciones.ai_family r1.direcciones.ai_socktype r1.direcciones.ai_protocol)
        = r2)
    (h3 : so.responder
      (w.traza ++ [⟨.getaddrinfo none puerto (crear_estructura_referencia w tipo_socket), r1⟩]
        ++ [⟨.socket r1.direcciones.ai_family r1.direcciones.ai_socktype
              r1.direcciones.ai_protocol, r2⟩])
      (.setsockopt r2.valor SOL_SOCKET SO_REUSEADDR 1 tam_int) = r3)
    (h4 : so.responder
      (w.traza ++ [⟨.getaddrinfo none puerto (crear_estructura_referencia w tipo_socket), r1⟩]
        ++ [⟨.socket r1.direcciones.ai_family r1.direcciones.ai_socktype
              r1.direcciones.ai_protocol, r2⟩]
        ++ [⟨.setsockopt r2.valor SOL_SOCKET SO_REUSEADDR 1 tam_int, r3⟩])
      (.bind r2.valor r1.direcciones.ai_addr r1.direcciones.ai_addrlen) = r4)
    (ok1 : r1.valor = 0) (ok2 : r2.valor ≠ -1) (ok3 : r3.valor ≠ -1) (ok4 : r4.valor ≠ -1) :
    (inicializar_servidor so w puerto tipo_socket).valor? = some r2.valor ∧
    (inicializar_servidor so w puerto tipo_socket).mundo.traza
      = w.traza ++
        [⟨.getaddrinfo none puerto (crear_estructura_referencia w tipo_socket), r1⟩,
         ⟨.socket r1.direcciones.ai_family r1.direcciones.ai_socktype
            r1.direcciones.ai_protocol, r2⟩,
         ⟨.setsockopt r2.valor SOL_SOCKET SO_REUSEADDR 1 tam_int, r3⟩,
         ⟨.bind r2.valor r1.direcciones.ai_addr r1.direcciones.ai_addrlen, r4⟩] ∧
    (inicializar_servidor so w puerto tipo_socket).mundo.abiertos = r2.valor :: w.abiertos ∧
    (inicializar_servidor so w puerto tipo_socket).mundo.stderr = w.stderr := by
  unfold inicializar_servidor obtener_direccion
  simp only [llamar, h1, ok1, ne_eq, not_true_eq_false, if_false, Resultado.luego]
  unfold crear_socket
  simp only [llamar, h2, ok2, if_false, h3, ok3]
  unfold asociar_socket
  simp only [llamar, h4, ok4, if_false]
  simp [Resultado.valor?, Resultado.mundo, actualizar_abiertos, ok2]

/-- Witness of C7: the stream server on port 6666 under an operating system
in which every call succeeds. -/
theorem inicializar_servidor_secuencia_witness :
    (inicializar_servidor so_exito mundo_inicial "6666" SOCK_STREAM).valor? = some 4 ∧
    (inicializar_servidor so_exito mundo_inicial "6666" SOCK_STREAM).mundo.traza
      = mundo_inicial.traza ++
        [⟨.getaddrinfo none "6666" (crear_estructura_referencia mundo_inicial SOCK_STREAM),
            respuesta_simple 0 0⟩,
         ⟨.socket AF_INET SOCK_STREAM 6, respuesta_simple 4 0⟩,
         ⟨.setsockopt 4 SOL_SOCKET SO_REUSEADDR 1 tam_int, respuesta_simple 0 0⟩,
         ⟨.bind 4 (some comodin4) 16, respuesta_simple 0 0⟩] ∧
    (inicializar_servidor so_exito mundo_inicial "6666" SOCK_STREAM).mundo.abiertos
      = 4 :: mundo_inicial.abiertos ∧
    (inicializar_servidor so_exito mundo_inicial "6666" SOCK_STREAM).mundo.stderr
      = mundo_inicial.stderr :=
  inicializar_servidor_secuencia so_exito mundo_inicial "6666" SOCK_STREAM
    (respuesta_simple 0 0) (respuesta_simple 4 0) (respuesta_simple 0 0) (respuesta_simple 0 0)
    rfl rfl rfl rfl (by decide) (by decide) (by decide) (by decide)

/-- C8: for both values of the global family selection and every socket type
`t`, `crear_estructura_referencia` returns hints with flags exactly
`AI_PASSIVE`, socket type `t`, family `AF_INET` for `kIPV4` and `AF_INET6` for
`kIPV6` (never the other family) and every other field zero; and the first
system call of `inicializar_servidor`, the only `getaddrinfo` it makes, is
made with host `NULL` and exactly those hints. -/
theorem referencia_pasiva_de_la_familia (so : SO) (w : Mundo) (puerto : String)
    (tipo_socket : Int) :
    (crear_estructura_referencia w tipo_socket).ai_flags = AI_PASSIVE ∧
    (crear_estructura_referencia w tipo_socket).ai_socktype = tipo_socket ∧
    (crear_estructura_referencia w tipo_socket).ai_family
      = (match w.familia_direcciones with
          | .kIPV4 => AF_INET
          | .kIPV6 => AF_INET6) ∧
    (crear_estructura_referencia w tipo_socket).ai_family
      ≠ (match w.familia_direcciones with
          | .kIPV4 => AF_INET6
          | .kIPV6 => AF_INET) ∧
    (crear_estructura_referencia w tipo_socket).ai_protocol = 0 ∧
    (crear_estructura_referencia w tipo_socket).ai_addrlen = 0 ∧
    (crear_estructura_referencia w tipo_socket).ai_addr = none ∧
    (crear_estructura_referencia w tipo_socket).ai_canonname = none ∧
    (crear_estructura_referencia w tipo_socket).ai_next = none ∧
    ∃ r resto,
      (inicializar_servidor so w puerto tipo_socket).mundo.traza
        = w.traza ++
          ⟨.getaddrinfo none puerto (crear_estructura_referencia w tipo_socket), r⟩ :: resto ∧
      ∀ e ∈ resto, ∀ ip_host puerto' referencia,
        e.llamada ≠ .getaddrinfo ip_host puerto' referencia := by
  refine ⟨rfl, rfl, ?_, ?_, rfl, rfl, rfl, rfl, rfl, ?_⟩
  · cases hf : w.familia_direcciones <;> simp [crear_estructura_referencia, addrinfo.ai_family, hf]
  · cases hf : w.familia_direcciones <;>
      simp [crear_estructura_referencia, addrinfo.ai_family, hf, AF_INET, AF_INET6]
  · unfold inicializar_servidor obtener_direccion
    simp only [llamar]
    generalize so.responder w.traza _ = r1
    refine ⟨r1, ?_⟩
    by_cases h1 : r1.valor = 0
    · simp only [h1, ne_eq, not_true_eq_false, if_false, Resultado.luego]
      unfold crear_socket
      simp only [llamar]
      generalize so.responder _ (Llamada.socket _ _ _) = r2
      by_cases h2 : r2.valor = -1
      · exact ⟨[⟨.socket r1.direcciones.ai_family r1.direcciones.ai_socktype
                r1.direcciones.ai_protocol, r2⟩],
          by simp [h2, Resultado.mundo, fprintf_stderr]⟩
      · simp only [h2, if_false]
        generalize so.responder _ (Llamada.setsockopt _ _ _ _ _) = r3
        by_cases h3 : r3.valor = -1
        · simp only [h3, if_true]
          generalize so.responder _ (Llamada.close _) = r4
          exact ⟨[⟨.socket r1.direcciones.ai_family r1.direcciones.ai_socktype
                r1.direcciones.ai_protocol, r2⟩,
              ⟨.setsockopt r2.valor SOL_SOCKET SO_REUSEADDR 1 tam_int, r3⟩, ⟨.close r2.valor, r4⟩],
            by simp [Resultado.mundo, fprintf_stderr]⟩
        · simp only [h3, if_false]
          unfold asociar_socket
          simp only [llamar]
          generalize so.responder _ (Llamada.bind _ _ _) = r4
          by_cases h4 : r4.valor = -1
          · simp only [h4, if_true]
            generalize so.responder _ (Llamada.close _) = r5
            exact ⟨[⟨.socket r1.direcciones.ai_family r1.direcciones.ai_socktype
                r1.direcciones.ai_protocol, r2⟩,
                ⟨.setsockopt r2.valor SOL_SOCKET SO_REUSEADDR 1 tam_int, r3⟩,
                ⟨.bind r2.valor r1.direcciones.ai_addr r1.direcciones.ai_addrlen, r4⟩, ⟨.close r2.valor, r5⟩],
              by simp [Resultado.mundo, fprintf_stderr]⟩
          · exact ⟨[⟨.socket r1.direcciones.ai_family r1.direcciones.ai_socktype
                r1.direcciones.ai_protocol, r2⟩,
                ⟨.setsockopt r2.valor SOL_SOCKET SO_REUSEADDR 1 tam_int, r3⟩,
                ⟨.bind r2.valor r1.direcciones.ai_addr r1.direcciones.ai_addrlen, r4⟩],
              by simp [h4, Resultado.mundo]⟩
    · exact ⟨[], by simp [h1, Resultado.luego, Resultado.mundo, fprintf_stderr]⟩

/-- C9: when `accept` succeeds, `aceptar` returns the descriptor and the peer
address the operating system produced, makes no other system call (no
`close`), and leaves the listening descriptor open; a second `aceptar` on the
same listening descriptor then again makes one `accept`, and the two values
returned are the results of those two separate calls. -/
theorem aceptar_repetible (so : SO) (w : Mundo) (descriptor : Int) (r1 r2 : Respuesta)
    (hd : descriptor ∈ w.abiertos)
    (h1 : so.responder w.traza (.accept descriptor tam_sockaddr_storage) = r1)
    (ok1 : r1.valor ≠ -1)
    (h2 : so.responder (w.traza ++ [⟨.accept descriptor tam_sockaddr_storage, r1⟩])
      (.accept descriptor tam_sockaddr_storage) = r2)
    (ok2 : r2.valor ≠ -1) :
    (aceptar so w descriptor).valor? = some (r1.valor, r1.origen) ∧
    (aceptar so w descriptor).mundo.traza
      = w.traza ++ [⟨.accept descriptor tam_sockaddr_storage, r1⟩] ∧
    (aceptar so w descriptor).mundo.abiertos = r1.valor :: w.abiertos ∧
    descriptor ∈ (aceptar so w descriptor).mundo.abiertos ∧
    (aceptar so (aceptar so w descriptor).mundo descriptor).valor?
      = some (r2.valor, r2.origen) ∧
    (aceptar so (aceptar so w descriptor).mundo descriptor).mundo.traza
      = w.traza ++ [⟨.accept descriptor tam_sockaddr_storage, r1⟩,
          ⟨.accept descriptor tam_sockaddr_storage, r2⟩] ∧
    (aceptar so (aceptar so w descriptor).mundo descriptor).mundo.abiertos
      = r2.valor :: r1.valor :: w.abiertos ∧
    descriptor ∈ (aceptar so (aceptar so w descriptor).mundo descriptor).mundo.abiertos := by
  have e1 : aceptar so w descriptor
      = .retorna (r1.valor, r1.origen)
          { w with
            errno := r1.errno
            abiertos := r1.valor :: w.abiertos
            traza := w.traza ++ [⟨.accept descriptor tam_sockaddr_storage, r1⟩] } := by
    simp [aceptar, llamar, h1, ok1, actualizar_abiertos]
  rw [e1]
  simp [aceptar, llamar, Resultado.mundo, Resultado.valor?, h2, ok2, ok1, actualizar_abiertos, hd]

/-- The failure path of `aceptar`: when `accept` reports `-1` the listening
descriptor is closed, a diagnostic is written and the process ends with
`EXIT_FAILURE`. -/
theorem aceptar_fallo_cierra (so : SO) (w : Mundo) (descriptor : Int)
    (h : (so.responder w.traza (.accept descriptor tam_sockaddr_storage)).valor = -1) :
    (aceptar so w descriptor).terminado = true ∧
    descriptor ∉ (aceptar so w descriptor).mundo.abiertos ∧
    ∃ r, (aceptar so w descriptor).mundo.traza
        = w.traza ++ [⟨.accept descriptor tam_sockaddr_storage,
            so.responder w.traza (.accept descriptor tam_sockaddr_storage)⟩,
          ⟨.close descriptor, r⟩] ∧
      (aceptar so w descriptor).mundo.stderr
        = w.stderr ++ ["\nError al aceptar(accept) conexión: " ++ so.strerror r.errno ++ "\n"] := by
  refine ⟨?_, ?_, so.responder (w.traza ++ [⟨.accept descriptor tam_sockaddr_storage,
    so.responder w.traza (.accept descriptor tam_sockaddr_storage)⟩]) (.close descriptor), ?_⟩ <;>
    simp [aceptar, llamar, h, Resultado.terminado, Resultado.mundo, actualizar_abiertos,
      fprintf_stderr]

/-- Witness of C9: two connections accepted on the listening descriptor 3. -/
theorem aceptar_repetible_witness :
    (aceptar so_exito mundo_escucha 3).valor? = some (4, loopback4) ∧
    (aceptar so_exito mundo_escucha 3).mundo.traza
      = mundo_escucha.traza
        ++ [⟨.accept 3 tam_sockaddr_storage, ⟨4, 0, info_comodin4, [], loopback4⟩⟩] ∧
    (aceptar so_exito mundo_escucha 3).mundo.abiertos = 4 :: mundo_escucha.abiertos ∧
    (3 : Int) ∈ (aceptar so_exito mundo_escucha 3).mundo.abiertos ∧
    (aceptar so_exito (aceptar so_exito mundo_escucha 3).mundo 3).valor?
      = some (5, loopback4) ∧
    (aceptar so_exito (aceptar so_exito mundo_escucha 3).mundo 3).mundo.traza
      = mundo_escucha.traza
        ++ [⟨.accept 3 tam_sockaddr_storage, ⟨4, 0, info_comodin4, [], loopback4⟩⟩,
          ⟨.accept 3 tam_sockaddr_storage, ⟨5, 0, info_comodin4, [], loopback4⟩⟩] ∧
    (aceptar so_exito (aceptar so_exito mundo_escucha 3).mundo 3).mundo.abiertos
      = 5 :: 4 :: mundo_escucha.abiertos ∧
    (3 : Int) ∈ (aceptar so_exito (aceptar so_exito mundo_escucha 3).mundo 3).mundo.abiertos :=
  aceptar_repetible so_exito mundo_escucha 3 ⟨4, 0, info_comodin4, [], loopback4⟩
    ⟨5, 0, info_comodin4, [], loopback4⟩ (by decide) rfl (by decide) rfl (by decide)

/-- The decimal text of a byte has at most three characters. -/
theorem longitud_decimal_byte (b : Byte) : (toString b.val).length ≤ 3 :=
  Nat.repr_length b.val 3 (by decide) (by omega)

/-- C10: `obtener_direccion_imprimible` gives the conventional text of the
family.  For every raw IPv4 address (tag `AF_INET`, any port, address bytes
`a b c d`) the result is the dotted quad `a.b.c.d` in decimal, so the IPv4
loopback yields `127.0.0.1`; and the raw IPv6 loopback (tag `AF_INET6`, any
port and flow information, fifteen zero bytes followed by `1`) yields `::1`. -/
theorem obtener_direccion_imprimible_convencional :
    (∀ (p1 p2 a b c d : Byte) (resto : List Byte),
      obtener_direccion_imprimible ⟨AF_INET, p1 :: p2 :: a :: b :: c :: d :: resto⟩
        = some (toString a.val ++ "." ++ toString b.val ++ "." ++ toString c.val ++ "."
            ++ toString d.val)) ∧
    obtener_direccion_imprimible loopback4 = some "127.0.0.1" ∧
    (∀ (p1 p2 f1 f2 f3 f4 : Byte) (resto : List Byte),
      obtener_direccion_imprimible
          ⟨AF_INET6, p1 :: p2 :: f1 :: f2 :: f3 :: f4 ::
            0 :: 0 :: 0 :: 0 :: 0 :: 0 :: 0 :: 0 :: 0 :: 0 :: 0 :: 0 :: 0 :: 0 :: 0 :: 1 :: resto⟩
        = some "::1") ∧
    obtener_direccion_imprimible loopback6 = some "::1" := by
  refine ⟨?_, by decide, ?_, by decide⟩
  · intro p1 p2 a b c d resto
    have ha := longitud_decimal_byte a
    have hb := longitud_decimal_byte b
    have hc := longitud_decimal_byte c
    have hd := longitud_decimal_byte d
    have hlen : ¬ (toString a.val ++ "." ++ toString b.val ++ "." ++ toString c.val ++ "."
        ++ toString d.val).length ≥ INET6_ADDRSTRLEN := by
      simp only [String.length_append, INET6_ADDRSTRLEN]
      have : ".".length = 1 := rfl
      omega
    simp only [obtener_direccion_imprimible, inet_ntop, extraer_direccion_sockaddr, if_true,
      List.drop_succ_cons, List.drop_zero, inet_ntop4, hlen, if_false]
  · intro p1 p2 f1 f2 f3 f4 resto
    have hfam : ¬ (AF_INET6 = AF_INET) := by decide
    have hlen : ¬ ((0 :: 0 :: 0 :: 0 :: 0 :: 0 :: 0 :: 0 :: 0 :: 0 :: 0 :: 0 :: 0 :: 0 :: 0 ::
        1 :: resto : List Byte).length < 16) := by
      simp only [List.length_cons]
      omega
    simp only [obtener_direccion_imprimible, inet_ntop, extraer_direccion_sockaddr, hfam,
      if_false, if_true, List.drop_succ_cons, List.drop_zero, inet_ntop6, hlen,
      List.take_succ_cons, List.take_zero]
    rfl

/-- C11: for a datagram client whose resolution and socket creation succeed,
`inicializar_cliente` makes two system calls only, `getaddrinfo` and `socket`
with the family, type and protocol of the first candidate, so no `connect`;
it returns the new descriptor and stores in `info_destino` the chain of the
resolver as it is, the candidates in the resolver's order; and a later
`enviar_datos_dgram` with that chain makes one `sendto` to the address and
the address length of the first candidate. -/
theorem inicializar_cliente_dgram (so : SO) (w : Mundo) (ip_destino : Option String)
    (puerto : String) (r1 r2 : Respuesta) (buffer : List Byte) (tam_buffer bandera : Int)
    (h1 : so.responder w.traza
      (.getaddrinfo ip_destino puerto (crear_estructura_referencia w SOCK_DGRAM)) = r1)
    (h2 : so.responder
      (w.traza ++
        [⟨.getaddrinfo ip_destino puerto (crear_estructura_referencia w SOCK_DGRAM), r1⟩])
      (.socket r1.direcciones.ai_family r1.direcciones.ai_socktype r1.direcciones.ai_protocol)
        = r2)
    (ok1 : r1.valor = 0) (ok2 : r2.valor ≠ -1) :
    (inicializar_cliente so w ip_destino puerto SOCK_DGRAM).valor?
      = some (r2.valor, r1.direcciones) ∧
    (inicializar_cliente so w ip_destino puerto SOCK_DGRAM).valor?.map
        (fun v => candidatos v.2) = some (candidatos r1.direcciones) ∧
    (inicializar_cliente so w ip_destino puerto SOCK_DGRAM).mundo.traza
      = w.traza ++
        [⟨.getaddrinfo ip_destino puerto (crear_estructura_referencia w SOCK_DGRAM), r1⟩,
         ⟨.socket r1.direcciones.ai_family r1.direcciones.ai_socktype
            r1.direcciones.ai_protocol, r2⟩] ∧
    (enviar_datos_dgram so (inicializar_cliente so w ip_destino puerto SOCK_DGRAM).mundo
        r2.valor r1.direcciones buffer tam_buffer bandera).mundo.traza.map Evento.llamada
      = w.traza.map Evento.llamada ++
        [.getaddrinfo ip_destino puerto (crear_estructura_referencia w SOCK_DGRAM),
         .socket r1.direcciones.ai_family r1.direcciones.ai_socktype
            r1.direcciones.ai_protocol,
         .sendto r2.valor buffer tam_buffer bandera r1.direcciones.ai_addr
            r1.direcciones.ai_addrlen] := by
  have e1 : inicializar_cliente so w ip_destino puerto SOCK_DGRAM
      = .retorna (r2.valor, r1.direcciones)
          { w with
            errno := r2.errno
            abiertos := r2.valor :: w.abiertos
            traza := w.traza ++
              [⟨.getaddrinfo ip_destino puerto (crear_estructura_referencia w SOCK_DGRAM), r1⟩,
               ⟨.socket r1.direcciones.ai_family r1.direcciones.ai_socktype
                  r1.direcciones.ai_protocol, r2⟩] } := by
    unfold inicializar_cliente obtener_direccion
    simp only [llamar, h1, ok1, ne_eq, not_true_eq_false, if_false, Resultado.luego]
    unfold crear_socket
    simp [llamar, h2, ok2, actualizar_abiertos]
  rw [e1]
  refine ⟨rfl, rfl, rfl, ?_⟩
  by_cases h : (so.responder
      (w.traza ++
        [⟨.getaddrinfo ip_destino puerto (crear_estructura_referencia w SOCK_DGRAM), r1⟩,
         ⟨.socket r1.direcciones.ai_family r1.direcciones.ai_socktype
            r1.direcciones.ai_protocol, r2⟩])
      (.sendto r2.valor buffer tam_buffer bandera r1.direcciones.ai_addr
        r1.direcciones.ai_addrlen)).valor = -1 <;>
    simp [enviar_datos_dgram, llamar, Resultado.mundo, fprintf_stderr, h]

/-- Witness of C11: a datagram client for `192.168.0.7`, the resolver giving
two candidates; the five bytes go to the first one. -/
theorem inicializar_cliente_dgram_witness :
    (inicializar_cliente so_dgram mundo_inicial (some "192.168.0.7") "6666" SOCK_DGRAM).valor?
      = some (3, info_dos_candidatos) ∧
    (inicializar_cliente so_dgram mundo_inicial (some "192.168.0.7") "6666" SOCK_DGRAM).valor?.map
        (fun v => candidatos v.2)
      = some [info_dos_candidatos,
          .mk 0 AF_INET SOCK_DGRAM 17 16 (some loopback4) none none] ∧
    (inicializar_cliente so_dgram mundo_inicial (some "192.168.0.7") "6666"
        SOCK_DGRAM).mundo.traza
      = mundo_inicial.traza ++
        [⟨.getaddrinfo (some "192.168.0.7") "6666"
            (crear_estructura_referencia mundo_inicial SOCK_DGRAM),
            ⟨0, 0, info_dos_candidatos, [], sockaddr_vacio⟩⟩,
         ⟨.socket AF_INET SOCK_DGRAM 17, respuesta_simple 3 0⟩] ∧
    (enviar_datos_dgram so_dgram
        (inicializar_cliente so_dgram mundo_inicial (some "192.168.0.7") "6666"
          SOCK_DGRAM).mundo
        3 info_dos_candidatos [104, 111, 108, 97, 10] 5 0).mundo.traza.map Evento.llamada
      = mundo_inicial.traza.map Evento.llamada ++
        [.getaddrinfo (some "192.168.0.7") "6666"
            (crear_estructura_referencia mundo_inicial SOCK_DGRAM),
         .socket AF_INET SOCK_DGRAM 17,
         .sendto 3 [104, 111, 108, 97, 10] 5 0 (some destino4) 16] :=
  inicializar_cliente_dgram so_dgram mundo_inicial (some "192.168.0.7") "6666"
    ⟨0, 0, info_dos_candidatos, [], sockaddr_vacio⟩ (respuesta_simple 3 0)
    [104, 111, 108, 97, 10] 5 0 rfl rfl (by decide) (by decide)

/-- C12: `recibir_datos_dgram` treats the result of its system call as
`recibir_datos_stream` does: for every result `r` and all flags `b` each
returns `r`, and each writes its one diagnostic exactly when
`escribe_diagnostico r b` is true, that is `r = -1` and `b ≠ MSG_DONTWAIT`. -/
theorem recibir_dgram_como_stream (so : SO) (w : Mundo) (descriptor : Int)
    (buffer : List Byte) (tam_buffer bandera : Int) :
    cuenta? (recibir_datos_stream so w descriptor buffer tam_buffer bandera)
      = some (so.responder w.traza (.recv descriptor buffer tam_buffer bandera)).valor ∧
    cuenta? (recibir_datos_dgram so w descriptor buffer tam_buffer bandera)
      = some (so.responder w.traza
          (.recvfrom descriptor buffer tam_buffer bandera tam_sockaddr_storage)).valor ∧
    (recibir_datos_stream so w descriptor buffer tam_buffer bandera).mundo.stderr
      = (if escribe_diagnostico
            (so.responder w.traza (.recv descriptor buffer tam_buffer bandera)).valor bandera
          then w.stderr ++ [diagnostico_recibir so
            (so.responder w.traza (.recv descriptor buffer tam_buffer bandera)).errno]
          else w.stderr) ∧
    (recibir_datos_dgram so w descriptor buffer tam_buffer bandera).mundo.stderr
      = (if escribe_diagnostico
            (so.responder w.traza
              (.recvfrom descriptor buffer tam_buffer bandera tam_sockaddr_storage)).valor bandera
          then w.stderr ++ [diagnostico_recibir so
            (so.responder w.traza
              (.recvfrom descriptor buffer tam_buffer bandera tam_sockaddr_storage)).errno]
          else w.stderr) := by
  refine ⟨?_, ?_, ?_, ?_⟩
  · simp [recibir_datos_stream, llamar, cuenta?, Resultado.valor?]
  · simp [recibir_datos_dgram, llamar, cuenta?, Resultado.valor?]
  · by_cases hr :
        (so.responder w.traza (.recv descriptor buffer tam_buffer bandera)).valor = -1 <;>
      by_cases hb : bandera = MSG_DONTWAIT <;>
      simp [recibir_datos_stream, llamar, Resultado.mundo, fprintf_stderr, escribe_diagnostico,
        diagnostico_recibir, hr, hb]
  · by_cases hr : (so.responder w.traza
          (.recvfrom descriptor buffer tam_buffer bandera tam_sockaddr_storage)).valor = -1 <;>
      by_cases hb : bandera = MSG_DONTWAIT <;>
      simp [recibir_datos_dgram, llamar, Resultado.mundo, fprintf_stderr, escribe_diagnostico,
        diagnostico_recibir, hr, hb]

/-- C13 (the code at the failing input): with `MSG_DONTWAIT | MSG_PEEK` the
flags ask for a non-blocking receive and the operating system reports `-1`
with `EAGAIN`, yet `recibir_datos_stream` and `recibir_datos_dgram` each write
a diagnostic to `stderr`. -/
theorem recibir_no_bloqueante_con_peek_escribe :
    pide_no_bloqueante (Int.lor MSG_DONTWAIT MSG_PEEK) = true ∧
    ((so_falla EAGAIN).responder mundo_inicial.traza
      (.recv 3 [] 99 (Int.lor MSG_DONTWAIT MSG_PEEK))).valor = -1 ∧
    (recibir_datos_stream (so_falla EAGAIN) mundo_inicial 3 [] 99
        (Int.lor MSG_DONTWAIT MSG_PEEK)).mundo.stderr
      = ["\nError al recibir datos(recvfrom): E11\n"] ∧
    (recibir_datos_dgram (so_falla EAGAIN) mundo_inicial 3 [] 99
        (Int.lor MSG_DONTWAIT MSG_PEEK)).mundo.stderr
      = ["\nError al recibir datos(recvfrom): E11\n"] := by
  decide

/-- The conversion `inet_ntop4` reads the four bytes at its argument only. -/
theorem inet_ntop4_take (src : List Byte) (size : Nat) :
    inet_ntop4 (src.take 4) size = inet_ntop4 src size := by
  rcases src with _ | ⟨a, _ | ⟨b, _ | ⟨c, _ | ⟨d, resto⟩⟩⟩⟩ <;> simp [inet_ntop4]

/-- The formatting loop of `inet_ntop6` reads the first sixteen bytes only. -/
theorem formatear6_take (src : List Byte) (words : List Nat) (best : Racha)
    (l : List (Nat × Nat)) (tp : String) :
    formatear6 (src.take 16) words best l tp = formatear6 src words best l tp := by
  have h4 : ∀ n, inet_ntop4 ((src.take 16).drop 12) n = inet_ntop4 (src.drop 12) n := by
    intro n
    rw [← inet_ntop4_take ((src.take 16).drop 12), ← inet_ntop4_take (src.drop 12)]
    congr 1
    simp [List.drop_take, List.take_take]
  induction l generalizing tp with
  | nil => rfl
  | cons iw resto ih =>
    obtain ⟨i, palabra⟩ := iw
    simp only [formatear6, ih, h4]

/-- The conversion `inet_ntop6` reads the sixteen bytes at its argument only. -/
theorem inet_ntop6_take (src : List Byte) (size : Nat) :
    inet_ntop6 (src.take 16) size = inet_ntop6 src size := by
  have hlen : ((src.take 16).length < 16) ↔ (src.length < 16) := by
    simp only [List.length_take]
    omega
  simp only [inet_ntop6, hlen, List.take_take, Nat.min_self, formatear6_take]

/-- C14: the formatter dispatches on the family tag.  For a raw address
tagged `AF_INET` or `AF_INET6`, `extraer_direccion_sockaddr` points at the
field `sin_addr` (four bytes) for `AF_INET` and at the field `sin6_addr`
(sixteen bytes) for `AF_INET6`; `obtener_direccion_imprimible` hands the same
tag and that pointer to `inet_ntop`; and the text is the IPv4 conversion of
the four bytes of `sin_addr`, respectively the IPv6 conversion of the sixteen
bytes of `sin6_addr`, and of nothing else. -/
theorem despacho_por_familia (sa : sockaddr)
    (h : sa.sa_family = AF_INET ∨ sa.sa_family = AF_INET6) :
    (extraer_direccion_sockaddr sa).take (if sa.sa_family = AF_INET then 4 else 16)
      = (if sa.sa_family = AF_INET then sin_addr sa else sin6_addr sa) ∧
    obtener_direccion_imprimible sa
      = inet_ntop sa.sa_family (extraer_direccion_sockaddr sa) INET6_ADDRSTRLEN ∧
    obtener_direccion_imprimible sa
      = (if sa.sa_family = AF_INET then inet_ntop4 (sin_addr sa) INET6_ADDRSTRLEN
          else inet_ntop6 (sin6_addr sa) INET6_ADDRSTRLEN) := by
  rcases h with h | h
  · simp [extraer_direccion_sockaddr, obtener_direccion_imprimible, inet_ntop, sin_addr, h,
      inet_ntop4_take]
  · have hne : ¬ (AF_INET6 = AF_INET) := by decide
    simp [extraer_direccion_sockaddr, obtener_direccion_imprimible, inet_ntop, sin6_addr, h,
      hne, inet_ntop6_take]

/-- Witness of C14: the IPv4 and the IPv6 loopback addresses. -/
theorem despacho_por_familia_witness :
    ((extraer_direccion_sockaddr loopback4).take (if loopback4.sa_family = AF_INET then 4 else 16)
        = (if loopback4.sa_family = AF_INET then sin_addr loopback4 else sin6_addr loopback4) ∧
      obtener_direccion_imprimible loopback4
        = inet_ntop loopback4.sa_family (extraer_direccion_sockaddr loopback4)
            INET6_ADDRSTRLEN ∧
      obtener_direccion_imprimible loopback4
        = (if loopback4.sa_family = AF_INET then inet_ntop4 (sin_addr loopback4) INET6_ADDRSTRLEN
            else inet_ntop6 (sin6_addr loopback4) INET6_ADDRSTRLEN)) ∧
    ((extraer_direccion_sockaddr loopback6).take (if loopback6.sa_family = AF_INET then 4 else 16)
        = (if loopback6.sa_family = AF_INET then sin_addr loopback6 else sin6_addr loopback6) ∧
      obtener_direccion_imprimible loopback6
        = inet_ntop loopback6.sa_family (extraer_direccion_sockaddr loopback6)
            INET6_ADDRSTRLEN ∧
      obtener_direccion_imprimible loopback6
        = (if loopback6.sa_family = AF_INET then inet_ntop4 (sin_addr loopback6) INET6_ADDRSTRLEN
            else inet_ntop6 (sin6_addr loopback6) INET6_ADDRSTRLEN)) :=
  ⟨despacho_por_familia loopback4 (Or.inl rfl), despacho_por_familia loopback6 (Or.inr rfl)⟩

/-- The loop of `clear_buffer` ends within one iteration more than there are
bytes of input. -/
theorem clear_buffer_bucle_termina (pasos : Nat) (entrada : List Byte)
    (h : entrada.length < pasos) : ∃ resto, clear_buffer_bucle pasos entrada = some resto := by
  induction pasos generalizing entrada with
  | zero => omega
  | succ pasos ih =>
    rcases entrada with _ | ⟨c1, _ | ⟨c2, resto⟩⟩
    · exact ⟨[], by simp [clear_buffer_bucle, getchar, EOF]⟩
    · by_cases h1 : (c1.val : Int) = 10
      · exact ⟨[], by simp [clear_buffer_bucle, getchar, h1]⟩
      · exact ⟨[], by simp [clear_buffer_bucle, getchar, h1, EOF]⟩
    · by_cases h1 : (c1.val : Int) = 10
      · exact ⟨c2 :: resto, by simp [clear_buffer_bucle, getchar, h1]⟩
      · have h2 : ¬ ((c2.val : Int) = EOF) := by
          simp only [EOF]
          omega
        have hl : resto.length < pasos := by
          simp only [List.length_cons] at h
          omega
        obtain ⟨r, hr⟩ := ih resto hl
        exact ⟨r, by simp [clear_buffer_bucle, getchar, h1, h2, hr]⟩

/-- The function `clear_buffer` terminates on every finite input. -/
theorem clear_buffer_termina (entrada : List Byte) :
    ∃ resto, clear_buffer entrada = some resto :=
  clear_buffer_bucle_termina (entrada.length + 1) entrada (Nat.lt_succ_self _)

/-- As `cliente_dgram.c` calls it, right after `scanf` stopped at a newline,
`clear_buffer` consumes that newline and nothing else. -/
theorem clear_buffer_tras_scanf (resto : List Byte) :
    clear_buffer (10 :: resto) = some resto := by
  rfl

/-- C15 (the code at the failing input): on the input `a`, newline, `b`, `c`,
newline, `d` the first newline is read by the second `getchar` of the loop
test and compared with `EOF` only, so `clear_buffer` goes on to the second
newline: it leaves `d` unread, not `b c newline d`. -/
theorem clear_buffer_pasa_la_nueva_linea :
    clear_buffer [97, 10, 98, 99, 10, 100] = some [100] ∧
    clear_buffer [97, 10, 98, 99, 10, 100] ≠ some [98, 99, 10, 100] := by
  decide

/-- The write of the terminator stays inside the buffer for every count from
`0` to `kMaxBuffer - 1`. -/
theorem servidor_stream_indice_dentro (so : SO) (w : Mundo) (descriptor_cliente : Int)
    (buffer : List Byte)
    (h0 : 0 ≤ (so.responder w.traza
      (.recv descriptor_cliente buffer (kMaxBuffer - 1) 0)).valor)
    (h1 : (so.responder w.traza
      (.recv descriptor_cliente buffer (kMaxBuffer - 1) 0)).valor ≤ kMaxBuffer - 1) :
    cuenta? (servidor_stream_iteracion so w descriptor_cliente buffer)
      = some (so.responder w.traza
          (.recv descriptor_cliente buffer (kMaxBuffer - 1) 0)).valor ∧
    ((servidor_stream_iteracion so w descriptor_cliente buffer).valor?.bind Prod.snd).isSome
      = true := by
  have hlt : (so.responder w.traza
      (.recv descriptor_cliente buffer (kMaxBuffer - 1) 0)).valor < kMaxBuffer := by omega
  simp [servidor_stream_iteracion, recibir_datos_stream, llamar, Resultado.luego,
    Resultado.valor?, cuenta?, escribir, h0, hlt]

/-- C16 (the code at the failing input): when `recv` reports `-1`, here with
`ECONNRESET`, `recibir_datos_stream` returns `-1` and the loop of the stream
server writes the terminator at `buffer[-1]`, outside the buffer of
`kMaxBuffer` bytes. -/
theorem servidor_stream_escribe_fuera :
    (servidor_stream_iteracion (so_falla ECONNRESET) mundo_inicial 4
        (List.replicate 100 0)).valor? = some (-1, none) ∧
    ¬ (0 ≤ (-1 : Int) ∧ (-1 : Int) < kMaxBuffer) := by
  decide

end FuncionesSockets
